import Mathlib

/-!
Verification development for the MSSQL dialect adapter
(`ibis_mssql/compiler.py`).  The module supplies a registry mapping
abstract operation kinds to SQL-emission rules, a handful of rewrite
helpers, a type-mapping table, and two utilities (`_find_params`,
`to_sql`).  Everything below is a shallow embedding of that module:
expressions, rules and registries are translated line by line from the
Python source; host-framework behaviour that the module merely calls
(the SQL toolkit compile/render step) is modelled where a claim
depends on it.
-/

namespace IbisMssql

/-- Abstract operation kinds (the `ops.*` classes referenced by the
module, plus the op kinds of the expression formers the rules build). -/
inductive OpKind where
  | Count | Max | Min | Sum | Mean
  | LStrip | Lowercase | RStrip | Repeat | Reverse
  | StringFind | StringLength | StringReplace | Strip | Substring | Uppercase
  | Abs | Acos | Asin | Atan2 | Atan | Ceil | Cos | Floor | FloorDivide
  | Power | Sign | Sin | Sqrt | Tan
  | TimestampNow
  | ExtractYear | ExtractMonth | ExtractDay | ExtractHour
  | ExtractMinute | ExtractSecond | ExtractMillisecond
  | NotContains | NullIf | NotAny
  | Least | Greatest
  | Round | Log2 | Ln | Log10 | Log | Exp | Modulus
  | Contains | LPad | RPad | Capitalize
  | RegexSearch | RegexExtract | RegexReplace | StringAscii | StringSQLLike
  | CumulativeMax | CumulativeMin | CumulativeMean | CumulativeSum
  | TimestampTruncate
  | TableColumn | Literal | Cast | Where
  deriving DecidableEq, Repr

/-- Abstract datatypes (`ibis.expr.datatypes`); only the distinctions the
module inspects are carried. -/
inductive DType where
  | boolean | int8 | int32 | int64 | floatT | float64 | stringT | timestampT | unknown
  deriving DecidableEq, Repr

/-- The dtype named by a cast string such as `int32` or `float64`
(`arg.cast(cast_type)` in `_reduction`). -/
def dtypeOfName (s : String) : DType :=
  if s = "int32" then DType.int32
  else if s = "float64" then DType.float64
  else DType.unknown

mutual
/-- Ibis expressions, as far as the adapter observes them: a typed
operation node carrying its argument tuple, plus the expression formers
the rules themselves build (`arg.cast(...)`, `where.ifelse(arg, None)`)
and column references used as leaves. -/
inductive IExpr where
  | column : String → DType → IExpr
  | cast : IExpr → String → IExpr
  /-- `cond.ifelse(thenExpr, None)` — the only ifelse form the module builds. -/
  | ifelseNull : IExpr → IExpr → IExpr
  | node : OpKind → IArgs → DType → IExpr

/-- One component of an op node's `.args` tuple. -/
inductive IArg where
  | aExpr : IExpr → IArg
  | aNone : IArg
  | aInt : Int → IArg
  | aStr : String → IArg

/-- An op node's `.args` tuple. -/
inductive IArgs where
  | nil : IArgs
  | cons : IArg → IArgs → IArgs
end

/-- `expr.type()`: the dtype of an expression. -/
def IExpr.typeOf : IExpr → DType
  | .column _ ty => ty
  | .cast _ s => dtypeOfName s
  | .ifelseNull _ t => t.typeOf
  | .node _ _ ty => ty

/-- `type(expr.op())`: the operation kind of an expression's node. -/
def IExpr.opKindOf : IExpr → OpKind
  | .column _ _ => OpKind.TableColumn
  | .cast _ _ => OpKind.Cast
  | .ifelseNull _ _ => OpKind.Where
  | .node k _ _ => k

/-- SQL column types referenced by the rules (`sa.SMALLINT`). -/
inductive SqlType where
  | smallint
  deriving DecidableEq, Repr

/-- SQL fragments produced by the emission rules: the SQLAlchemy
expression objects the Python rules return.  `intLit`/`strLit` are plain
Python values appearing in a SQL expression (which the host toolkit
binds as parameters); `literalColumn` is `sa.literal_column`, injected
as raw SQL text. -/
inductive SqlFrag where
  | func : String → List SqlFrag → SqlFrag
  | add : SqlFrag → SqlFrag → SqlFrag
  | sub : SqlFrag → SqlFrag → SqlFrag
  | div : SqlFrag → SqlFrag → SqlFrag
  | intLit : Int → SqlFrag
  | strLit : String → SqlFrag
  | literalColumn : String → SqlFrag
  | cast : SqlFrag → SqlType → SqlFrag

/-- Whether a fragment is a plain Python value that the host SQL toolkit
renders as a bind parameter (as opposed to raw SQL text such as
`sa.literal_column`). -/
def isBindFrag : SqlFrag → Bool
  | .intLit _ => true
  | .strLit _ => true
  | _ => false

/-- Python exceptions the module can raise. -/
inductive PyError where
  | unsupportedOperationError : String → PyError
  | nameError : String → PyError
  | typeError : String → PyError
  | valueError : String → PyError
  | attributeError : String → PyError
  /-- embedding artifact: marks insufficient recursion fuel, never
  reached for fuel larger than the input size. -/
  | modelOutOfFuel : PyError
  deriving DecidableEq, Repr

/-- The expression translator handed to every rule.  `translate` is the
host framework's `t.translate`; `ambient` stands for any other state the
translator object carries — the rules never read it, which is what the
statelessness claim checks. -/
structure Translator where
  translate : IExpr → SqlFrag
  ambient : Nat

/-- A registry entry: an emission rule. -/
abbrev Rule := Translator → IExpr → Except PyError SqlFrag

/-- Python class repr of an operation kind,
`str(type(op))` = `<class 'ibis.expr.operations.X'>`. -/
def opKindName : OpKind → String
  | .Count => "Count" | .Max => "Max" | .Min => "Min" | .Sum => "Sum" | .Mean => "Mean"
  | .LStrip => "LStrip" | .Lowercase => "Lowercase" | .RStrip => "RStrip"
  | .Repeat => "Repeat" | .Reverse => "Reverse"
  | .StringFind => "StringFind" | .StringLength => "StringLength"
  | .StringReplace => "StringReplace" | .Strip => "Strip"
  | .Substring => "Substring" | .Uppercase => "Uppercase"
  | .Abs => "Abs" | .Acos => "Acos" | .Asin => "Asin" | .Atan2 => "Atan2"
  | .Atan => "Atan" | .Ceil => "Ceil" | .Cos => "Cos" | .Floor => "Floor"
  | .FloorDivide => "FloorDivide" | .Power => "Power" | .Sign => "Sign"
  | .Sin => "Sin" | .Sqrt => "Sqrt" | .Tan => "Tan"
  | .TimestampNow => "TimestampNow"
  | .ExtractYear => "ExtractYear" | .ExtractMonth => "ExtractMonth"
  | .ExtractDay => "ExtractDay" | .ExtractHour => "ExtractHour"
  | .ExtractMinute => "ExtractMinute" | .ExtractSecond => "ExtractSecond"
  | .ExtractMillisecond => "ExtractMillisecond"
  | .NotContains => "NotContains" | .NullIf => "NullIf" | .NotAny => "NotAny"
  | .Least => "Least" | .Greatest => "Greatest"
  | .Round => "Round" | .Log2 => "Log2" | .Ln => "Ln" | .Log10 => "Log10"
  | .Log => "Log" | .Exp => "Exp" | .Modulus => "Modulus"
  | .Contains => "Contains" | .LPad => "LPad" | .RPad => "RPad"
  | .Capitalize => "Capitalize"
  | .RegexSearch => "RegexSearch" | .RegexExtract => "RegexExtract"
  | .RegexReplace => "RegexReplace" | .StringAscii => "StringAscii"
  | .StringSQLLike => "StringSQLLike"
  | .CumulativeMax => "CumulativeMax" | .CumulativeMin => "CumulativeMin"
  | .CumulativeMean => "CumulativeMean" | .CumulativeSum => "CumulativeSum"
  | .TimestampTruncate => "TimestampTruncate"
  | .TableColumn => "TableColumn" | .Literal => "Literal"
  | .Cast => "Cast" | .Where => "Where"

/-- `str(type(op))` for an operation kind. -/
def opClassRepr (k : OpKind) : String :=
  "<class 'ibis.expr.operations." ++ opKindName k ++ "'>"

/-- The message `msg.format(type(op))` built by
`raise_unsupported_op_error` (the source format string is
"SQLServer backend doesn't support ... operation!"). -/
def unsupportedMsg (k : OpKind) : String :=
  "SQLServer backend doesn't support " ++ opClassRepr k ++ " operation!"

/-- `raise_unsupported_op_error(translator, expr, *args)`: always raises
`com.UnsupportedOperationError` naming `type(expr.op())`. -/
def raise_unsupported_op_error : Rule := fun _ expr =>
  .error (.unsupportedOperationError (unsupportedMsg expr.opKindOf))

/-- The first argument of `_reduction`: either a name string such as
`'max'`, or an attribute object of the `sa.func` namespace (the registry
passes `sa.func.count`, which is not a string). -/
inductive SaFuncName where
  | str : String → SaFuncName
  | funcObj : String → SaFuncName
  deriving DecidableEq, Repr

/-- `getattr(sa.func, func_name)`: succeeds when `func_name` is a string
(producing the generated SQL function of that name) and raises
`TypeError` when it is any other object, since the builtin `getattr`
requires a string attribute name. -/
def getattrSaFunc : SaFuncName → Except PyError String
  | .str s => .ok s
  | .funcObj _ => .error (.typeError "attribute name must be string")

/-- `_reduction(func_name, cast_type)`; the source defaults
`cast_type='int32'`, inlined at each call site below.  The body is the
inner `reduction_compiler(t, expr)`. -/
def _reduction (func_name : SaFuncName) (cast_type : String) : Rule := fun t expr =>
  match expr with
  | .node _ (.cons (.aExpr arg0) (.cons w .nil)) _ =>
    -- arg, where = expr.op().args
    let arg := if arg0.typeOf == DType.boolean then IExpr.cast arg0 cast_type else arg0
    match getattrSaFunc func_name with
    | .error e => .error e
    | .ok fname =>
      match w with
      | .aNone => .ok (.func fname [t.translate arg])
      | .aExpr we => .ok (.func fname [t.translate (IExpr.ifelseNull we arg)])
      | _ => .error (.attributeError "ifelse")
  | _ => .error (.valueError "cannot unpack reduction args")

/-- `_substr(t, expr)`. -/
def _substr : Rule := fun t expr =>
  match expr with
  | .node _ (.cons (.aExpr arg) (.cons (.aExpr start) (.cons lengthArg .nil))) _ =>
    -- arg, start, length = expr.op().args
    let sa_arg := t.translate arg
    let sa_start := t.translate start
    match lengthArg with
    | .aNone => .ok (.func "substring" [sa_arg, .add sa_start (.intLit 1)])
    | .aExpr len =>
      .ok (.func "substring" [sa_arg, .add sa_start (.intLit 1), t.translate len])
    | _ => .error (.attributeError "translate")
  | _ => .error (.valueError "cannot unpack substring args")

/-- `_string_find(t, expr)`; the fourth argument of the op (`end`) is
destructured into `_` and ignored. -/
def _string_find : Rule := fun t expr =>
  match expr with
  | .node _ (.cons (.aExpr arg) (.cons (.aExpr substr)
      (.cons startArg (.cons _endArg .nil)))) _ =>
    let sa_arg := t.translate arg
    let sa_substr := t.translate substr
    match startArg with
    | .aNone => .ok (.sub (.func "charindex" [sa_substr, sa_arg]) (.intLit 1))
    | .aExpr start =>
      .ok (.sub (.func "charindex" [sa_substr, sa_arg, t.translate start]) (.intLit 1))
    | _ => .error (.attributeError "translate")
  | _ => .error (.valueError "cannot unpack string_find args")

/-- `_floor_divide(t, expr)`. -/
def _floor_divide : Rule := fun t expr =>
  match expr with
  | .node _ (.cons (.aExpr left) (.cons (.aExpr right) .nil)) _ =>
    .ok (.func "floor" [.div (t.translate left) (t.translate right)])
  | _ => .error (.valueError "cannot unpack floor_divide args")

/-- `_extract(fmt)`: the returned `translator(t, expr)` closure.  The
`fmt` date-part name is passed through `sa.literal_column`, so it enters
the SQL as raw text and not as a bind parameter. -/
def _extract (fmt : String) : Rule := fun t expr =>
  match expr with
  | .node _ (.cons (.aExpr arg) .nil) _ =>
    .ok (.cast (.func "datepart" [.literalColumn fmt, t.translate arg]) .smallint)
  | _ => .error (.valueError "cannot unpack extract args")

/-- `ibis.sql.alchemy.unary(sa_func)`: host-framework helper translating
the single argument and applying the SQL function. -/
def unary (fname : String) : Rule := fun t expr =>
  match expr with
  | .node _ (.cons (.aExpr arg) .nil) _ => .ok (.func fname [t.translate arg])
  | _ => .error (.valueError "cannot unpack unary arg")

/-- Translate every element of an args tuple, all of which must be
expressions (`map(t.translate, args)`). -/
def translateAll (tr : IExpr → SqlFrag) : IArgs → Option (List SqlFrag)
  | .nil => some []
  | .cons (.aExpr e) rest =>
    match translateAll tr rest with
    | some fs => some (tr e :: fs)
    | none => none
  | .cons _ _ => none

/-- Number of elements of an args tuple. -/
def IArgs.len : IArgs → Nat
  | .nil => 0
  | .cons _ rest => 1 + rest.len

/-- `ibis.sql.alchemy.fixed_arity(sa_func, arity)`: host-framework
helper translating each of the `arity` arguments and applying the SQL
function. -/
def fixed_arity (fname : String) (arity : Nat) : Rule := fun t expr =>
  match expr with
  | .node _ args _ =>
    if args.len == arity then
      match translateAll t.translate args with
      | some fs => .ok (.func fname fs)
      | none => .error (.attributeError "translate")
    else .error (.valueError "wrong arity")
  | _ => .error (.valueError "cannot unpack args")

/-- Python `dict.update`: entries of `new` override entries of `d`, with
later duplicates inside `new` winning.  Dictionaries are modelled as
association lists read by first match (`List.lookup`), so the updated
entries are prepended in reverse. -/
def dictUpdate {K V : Type} (d new : List (K × V)) : List (K × V) :=
  new.reverse ++ d

/-- The dict literal passed to the first `_operation_registry.update`
call (source lines 92-137), in source order. -/
def _registry_updates : List (OpKind × Rule) :=
  [ -- aggregate methods
    (OpKind.Count, _reduction (SaFuncName.funcObj "count") "int32"),
    (OpKind.Max, _reduction (SaFuncName.str "max") "int32"),
    (OpKind.Min, _reduction (SaFuncName.str "min") "int32"),
    (OpKind.Sum, _reduction (SaFuncName.str "sum") "int32"),
    (OpKind.Mean, _reduction (SaFuncName.str "avg") "float64"),
    -- string methods
    (OpKind.LStrip, unary "ltrim"),
    (OpKind.Lowercase, unary "lower"),
    (OpKind.RStrip, unary "rtrim"),
    (OpKind.Repeat, fixed_arity "replicate" 2),
    (OpKind.Reverse, unary "reverse"),
    (OpKind.StringFind, _string_find),
    (OpKind.StringLength, unary "length"),
    (OpKind.StringReplace, fixed_arity "replace" 3),
    (OpKind.Strip, unary "trim"),
    (OpKind.Substring, _substr),
    (OpKind.Uppercase, unary "upper"),
    -- math
    (OpKind.Abs, unary "abs"),
    (OpKind.Acos, unary "acos"),
    (OpKind.Asin, unary "asin"),
    (OpKind.Atan2, fixed_arity "atn2" 2),
    (OpKind.Atan, unary "atan"),
    (OpKind.Ceil, unary "ceiling"),
    (OpKind.Cos, unary "cos"),
    (OpKind.Floor, unary "floor"),
    (OpKind.FloorDivide, _floor_divide),
    (OpKind.Power, fixed_arity "power" 2),
    (OpKind.Sign, unary "sign"),
    (OpKind.Sin, unary "sin"),
    (OpKind.Sqrt, unary "sqrt"),
    (OpKind.Tan, unary "tan"),
    -- timestamp methods
    (OpKind.TimestampNow, fixed_arity "GETDATE" 0),
    (OpKind.ExtractYear, _extract "year"),
    (OpKind.ExtractMonth, _extract "month"),
    (OpKind.ExtractDay, _extract "day"),
    (OpKind.ExtractHour, _extract "hour"),
    (OpKind.ExtractMinute, _extract "minute"),
    (OpKind.ExtractSecond, _extract "second"),
    (OpKind.ExtractMillisecond, _extract "millisecond") ]

/-- `_unsupported_ops` as first assigned (source lines 140-173): a list
of operation kinds, in source order. -/
def _unsupported_ops : List OpKind :=
  [ -- standard operations
    OpKind.NotContains, OpKind.NullIf, OpKind.NotAny,
    -- miscellaneous
    OpKind.Least, OpKind.Greatest,
    -- numeric
    OpKind.Round, OpKind.Log2, OpKind.Ln, OpKind.Log10, OpKind.Log,
    OpKind.Exp, OpKind.Modulus,
    -- string
    OpKind.Contains, OpKind.LPad, OpKind.RPad, OpKind.Capitalize,
    OpKind.RegexSearch, OpKind.RegexExtract, OpKind.RegexReplace,
    OpKind.StringAscii, OpKind.StringSQLLike,
    -- aggregate methods
    OpKind.CumulativeMax, OpKind.CumulativeMin, OpKind.CumulativeMean,
    OpKind.CumulativeSum,
    -- datetime methods
    OpKind.TimestampTruncate ]

/-- The reassignment
`_unsupported_ops = {k: raise_unsupported_op_error for k in _unsupported_ops}`. -/
def _unsupported_ops_dict : List (OpKind × Rule) :=
  _unsupported_ops.map (fun k => (k, raise_unsupported_op_error))

/-- `_operation_registry`: a copy of the base framework registry
(`alch._operation_registry`, an arbitrary external table here), updated
with the MSSQL entries and then, last, with the unsupported-operation
overrides.  The final table is the one installed as
`MSSQLExprTranslator._registry`. -/
def _operation_registry (base : List (OpKind × Rule)) : List (OpKind × Rule) :=
  dictUpdate (dictUpdate base _registry_updates) _unsupported_ops_dict

/-- The abstract datatype classes used as type-map keys
(`dt.Boolean`, `dt.Int8`, ...). -/
inductive DtClass where
  | Boolean | Int8 | Int32 | Int64 | Float | Double | String
  deriving DecidableEq, Repr

/-- Target-engine column types used as type-map values
(`pyodbc.SQL_BIT` and the `sqlalchemy.dialects.mssql` types). -/
inductive MsType where
  | SQL_BIT | TINYINT | INTEGER | BIGINT | REAL | VARCHAR
  deriving DecidableEq, Repr

/-- The dict literal passed to `_type_map.update` inside
`MSSQLExprTranslator` (source lines 184-194), in source order. -/
def _type_map_updates : List (DtClass × MsType) :=
  [ (DtClass.Boolean, MsType.SQL_BIT),
    (DtClass.Int8, MsType.TINYINT),
    (DtClass.Int32, MsType.INTEGER),
    (DtClass.Int64, MsType.BIGINT),
    (DtClass.Float, MsType.REAL),
    (DtClass.Double, MsType.REAL),
    (DtClass.String, MsType.VARCHAR) ]

/-- `MSSQLExprTranslator._type_map`: a copy of the base translator's
type map (arbitrary external table here) updated with the MSSQL
entries. -/
def MSSQLExprTranslator_type_map (base : List (DtClass × MsType)) :
    List (DtClass × MsType) :=
  dictUpdate base _type_map_updates

/-! ### `_find_params`

`_find_params` walks a generic expression tree through `op().flat_args()`.
The walk is modelled over a generic tree of flat arguments: ints, floats
(carried as their exact numeric values), strings, `None`, and nested
expressions.  The module never imports `ibis.expr.types as ir`, so the
line `elif isinstance(arg, ir.Expr):` evaluates the unbound name `ir`
and raises `NameError` whenever it is reached, i.e. for every argument
that is not an int or a float. -/

/-- One element of a node's `flat_args()` tuple; `argExpr kindId args`
is a sub-expression argument, carrying its op's identity and that op's
own flat args. -/
inductive FlatArg where
  | argInt : Int → FlatArg
  | argFloat : Rat → FlatArg
  | argStr : String → FlatArg
  | argNone : FlatArg
  | argExpr : Nat → List FlatArg → FlatArg

/-- An operation node: its op identity and its `flat_args()`. -/
abbrev PNode := Nat × List FlatArg

mutual
/-- Structural equality of flat args (ibis node `==`). -/
def flatArgBeq : FlatArg → FlatArg → Bool
  | .argInt a, .argInt b => a == b
  | .argFloat a, .argFloat b => a == b
  | .argStr a, .argStr b => a == b
  | .argNone, .argNone => true
  | .argExpr i as, .argExpr j bs => i == j && flatArgsBeq as bs
  | _, _ => false

/-- Structural equality of flat-arg tuples. -/
def flatArgsBeq : List FlatArg → List FlatArg → Bool
  | [], [] => true
  | a :: as, b :: bs => flatArgBeq a b && flatArgsBeq as bs
  | _, _ => false
end

/-- Node equality (`node in seen` membership test). -/
def nodeBeq (a b : PNode) : Bool :=
  a.1 == b.1 && flatArgsBeq a.2 b.2

/-- `node in seen`. -/
def memNode (n : PNode) (l : List PNode) : Bool :=
  l.any (nodeBeq n)

/-- A numeric parameter value collected by `_find_params`: a Python int
or float, compared by numeric equality (Python `==`). -/
inductive PyNum where
  | pyIntV : Int → PyNum
  | pyFloatV : Rat → PyNum
  deriving DecidableEq, Repr

/-- The numeric value of a parameter. -/
def pyNumVal : PyNum → Rat
  | .pyIntV n => (n : Rat)
  | .pyFloatV q => q

/-- Python `==` between collected parameters (an int equals a float of
the same value). -/
def pyNumEq (a b : PyNum) : Bool :=
  pyNumVal a == pyNumVal b

/-- `arg in seen_params`. -/
def memParam (v : PyNum) (l : List PyNum) : Bool :=
  l.any (pyNumEq v)

/-- The `for arg in node.flat_args():` body, processing the args left to
right and threading the stack and `seen_params`.  Every argument that is
not an int or a float reaches `elif isinstance(arg, ir.Expr):`, whose
evaluation of the unbound name `ir` raises `NameError`; the
`stack.append(arg.op())` push is therefore unreachable. -/
def processArgs : List FlatArg → List PNode → List PyNum →
    Except PyError (List PNode × List PyNum)
  | [], stack, seen_params => .ok (stack, seen_params)
  | .argInt n :: rest, stack, seen_params =>
    let v := PyNum.pyIntV n
    let sp := if memParam v seen_params then seen_params else seen_params ++ [v]
    processArgs rest stack sp
  | .argFloat q :: rest, stack, seen_params =>
    let v := PyNum.pyFloatV q
    let sp := if memParam v seen_params then seen_params else seen_params ++ [v]
    processArgs rest stack sp
  | _ :: _, _, _ => .error (.nameError "ir")

/-- The `while stack:` loop of `_find_params`.  The Python stack pops
from the end; here the stack is kept top-first, with pushes to the head,
which realises the same LIFO discipline.  Fuel only bounds the model's
recursion and exceeds the work the loop can perform on the given tree. -/
def findParamsLoop : Nat → List PNode → List PNode → List PyNum →
    Except PyError (List PyNum)
  | 0, _, _, _ => .error .modelOutOfFuel
  | _ + 1, [], _, seen_params => .ok seen_params.reverse
  | fuel + 1, node :: rest, seen, seen_params =>
    if memNode node seen then
      findParamsLoop fuel rest seen seen_params
    else
      match processArgs node.2 rest seen_params with
      | .error e => .error e
      | .ok (stack2, sp2) => findParamsLoop fuel stack2 (seen ++ [node]) sp2

mutual
/-- Size of a flat arg, used only to provision fuel for the loop. -/
def flatArgSize : FlatArg → Nat
  | .argExpr _ as => 1 + flatArgsSize as
  | _ => 1

/-- Size of a flat-args tuple. -/
def flatArgsSize : List FlatArg → Nat
  | [] => 0
  | a :: as => flatArgSize a + flatArgsSize as
end

/-- `_find_params(expr)`: `expr.op()` is the root node. -/
def _find_params (expr : PNode) : Except PyError (List PyNum) :=
  findParamsLoop (1 + flatArgsSize expr.2 + 1) [expr] [] []

/-! ### `to_sql`

`to_sql` delegates to the host frameworks: `expr.compile()` produces a
compiled query object and `compiled.compile(compile_kwargs=...)` renders
it to text.  Modelled from the spec: a compiled query is a sequence of
raw SQL tokens and bound parameters, and rendering with
`literal_binds=True` replaces each parameter with its literal value
while rendering without it leaves a bind marker. -/

/-- A literal parameter value carried by a compiled query. -/
inductive LitVal where
  | lInt : Int → LitVal
  | lFloat : Rat → LitVal
  | lStr : String → LitVal
  deriving DecidableEq, Repr

/-- Literal SQL rendering of a parameter value. -/
def renderLit : LitVal → String
  | .lInt n => toString n
  | .lFloat q => toString q
  | .lStr s => "'" ++ s ++ "'"

/-- One token of a compiled query: raw SQL text, or a named bound
parameter with its value. -/
inductive SqlToken where
  | raw : String → SqlToken
  | bindParam : String → LitVal → SqlToken
  deriving DecidableEq, Repr

/-- A compiled query object (the result of `expr.compile()`). -/
abbrev CompiledQuery := List SqlToken

/-- One rendered token: literal text, or an unsubstituted bind marker. -/
inductive RenderedTok where
  | litTok : String → RenderedTok
  | markerTok : String → RenderedTok
  deriving DecidableEq, Repr

/-- Whether a rendered token is a bind marker. -/
def isMarker : RenderedTok → Bool
  | .markerTok _ => true
  | .litTok _ => false

/-- Modelled from the spec: rendering one token of a compiled query;
with `literal_binds` every parameter placeholder is replaced by its
literal value, without it the placeholder stays a bind marker. -/
def renderToken (literal_binds : Bool) : SqlToken → RenderedTok
  | .raw s => .litTok s
  | .bindParam name v =>
    if literal_binds then .litTok (renderLit v) else .markerTok name

/-- Modelled from the spec: `compiled.compile(...)`, the host
framework's render step over every token. -/
def compiledCompile (literal_binds : Bool) (c : CompiledQuery) : List RenderedTok :=
  c.map (renderToken literal_binds)

/-- The text of a rendered token (`str(...)`): a marker prints as a
named placeholder. -/
def renderedText : RenderedTok → String
  | .litTok s => s
  | .markerTok n => ":" ++ n

/-- `to_sql(expr)`: compile the expression through the host framework
(`host_compile` stands for the external `expr.compile()`), then render
with `literal_binds=True`. -/
def to_sql (host_compile : IExpr → CompiledQuery) (expr : IExpr) : String :=
  let compiled := host_compile expr
  String.join ((compiledCompile true compiled).map renderedText)

/-! ### Mutation model for the module-level table construction

Python dicts are heap objects: `.copy()` allocates a fresh dict and
`.update()` mutates in place.  To state that building the MSSQL tables
never mutates the base framework's tables, the dicts live in an explicit
heap (a list of dict contents indexed by reference) and the module's
initialisation statements are run as heap transformers. -/

/-- A heap of dictionaries; a reference is an index. -/
abbrev Heap (K V : Type) := List (List (K × V))

/-- The contents of the dict at a reference. -/
def heapGet {K V : Type} (h : Heap K V) (r : Nat) : List (K × V) :=
  h.getD r []

/-- `d.copy()`: allocate a fresh dict holding the same contents and
return its reference. -/
def pyCopy {K V : Type} (h : Heap K V) (r : Nat) : Heap K V × Nat :=
  (h ++ [heapGet h r], h.length)

/-- `d.update(new)`: mutate the dict at `r` in place. -/
def pyUpdateAt {K V : Type} (h : Heap K V) (r : Nat) (new : List (K × V)) :
    Heap K V :=
  h.set r (dictUpdate (heapGet h r) new)

/-- The module-level statements building `_operation_registry`:
`alch._operation_registry.copy()` followed by the two `.update` calls
(the MSSQL entries, then the unsupported-operation overrides). -/
def moduleInitRegistry (h : Heap OpKind Rule) (baseRef : Nat) :
    Heap OpKind Rule × Nat :=
  let (h1, r) := pyCopy h baseRef
  let h2 := pyUpdateAt h1 r _registry_updates
  let h3 := pyUpdateAt h2 r _unsupported_ops_dict
  (h3, r)

/-- The class-body statement
`_rewrites = alch.AlchemyExprTranslator._rewrites.copy()`: a copy with
no update; the rewrite-rule value type is external, hence generic. -/
def moduleInitRewrites {V : Type} (h : Heap OpKind V) (baseRef : Nat) :
    Heap OpKind V × Nat :=
  pyCopy h baseRef

/-- The class-body statements building `MSSQLExprTranslator._type_map`:
`alch.AlchemyExprTranslator._type_map.copy()` then `.update` with the
MSSQL column types. -/
def moduleInitTypeMap (h : Heap DtClass MsType) (baseRef : Nat) :
    Heap DtClass MsType × Nat :=
  let (h1, r) := pyCopy h baseRef
  (pyUpdateAt h1 r _type_map_updates, r)

/-! ### Helper lemmas -/

/-- Looking up a key of a constant-valued entry block finds that value,
whatever follows the block. -/
theorem lookup_map_const {K V : Type} [BEq K] [LawfulBEq K] (c : V)
    (l : List K) (rest : List (K × V)) (k : K) (h : k ∈ l) :
    List.lookup k (l.map (fun x => (x, c)) ++ rest) = some c := by
  induction l with
  | nil => cases h
  | cons a tl ih =>
    rcases List.mem_cons.mp h with rfl | h2
    · simp [List.lookup]
    · by_cases hk : k == a
      · simp [List.lookup, hk]
      · simp only [List.map, List.cons_append, List.lookup, hk]
        exact ih h2

/-- Appending to a heap does not change the dicts already present. -/
theorem heapGet_append {K V : Type} (h : Heap K V) (l : List (List (K × V)))
    (r : Nat) (hr : r < h.length) : heapGet (h ++ l) r = heapGet h r := by
  unfold heapGet
  rw [List.getD_eq_getElem?_getD, List.getD_eq_getElem?_getD, List.getElem?_append]
  simp [hr]

/-- Writing one dict leaves every other dict unchanged. -/
theorem heapGet_set_ne {K V : Type} (h : Heap K V) (r' r : Nat)
    (d : List (K × V)) (hne : r' ≠ r) : heapGet (h.set r' d) r = heapGet h r := by
  unfold heapGet
  rw [List.getD_eq_getElem?_getD, List.getD_eq_getElem?_getD, List.getElem?_set_ne hne]

/-- Rendering a compiled query with `literal_binds` yields no marker and
replaces every parameter by its rendered literal value. -/
theorem render_literal_binds (c : CompiledQuery) :
    (compiledCompile true c).any isMarker = false ∧
    (compiledCompile true c).map renderedText
      = c.map (fun tok =>
          match tok with
          | SqlToken.raw s => s
          | SqlToken.bindParam _ v => renderLit v) := by
  induction c with
  | nil => exact ⟨rfl, rfl⟩
  | cons tok ts ih =>
    cases tok with
    | raw s =>
      refine ⟨?_, ?_⟩
      · simpa [compiledCompile, renderToken, isMarker] using ih.1
      · simpa [compiledCompile, renderToken, renderedText] using ih.2
    | bindParam n v =>
      refine ⟨?_, ?_⟩
      · simpa [compiledCompile, renderToken, isMarker] using ih.1
      · simpa [compiledCompile, renderToken, renderedText] using ih.2

/-! ### Claim theorems -/

/-- C1: for every operation kind in the unsupported-operations set, and
whatever rules the base framework registry holds, the final registry
maps that kind to `raise_unsupported_op_error` (the rejection update is
applied last, so it overrides inherited rules), and that rule raises
`UnsupportedOperationError` naming the class of the operation and never
returns a SQL fragment. -/
theorem unsupported_ops_rejected :
    ∀ (base : List (OpKind × Rule)) (k : OpKind), k ∈ _unsupported_ops →
      List.lookup k (_operation_registry base) = some raise_unsupported_op_error
      ∧ ∀ (t : Translator) (e : IExpr),
          raise_unsupported_op_error t e
            = Except.error (PyError.unsupportedOperationError (unsupportedMsg e.opKindOf))
          ∧ ∀ frag : SqlFrag, raise_unsupported_op_error t e ≠ Except.ok frag := by
  intro base k hk
  refine ⟨?_, fun t e => ⟨rfl, fun frag hfrag => by cases hfrag⟩⟩
  have hreg : _operation_registry base
      = _unsupported_ops.reverse.map (fun x => (x, raise_unsupported_op_error))
        ++ dictUpdate base _registry_updates := by
    simp [_operation_registry, dictUpdate, _unsupported_ops_dict, List.map_reverse]
  rw [hreg]
  exact lookup_map_const _ _ _ _ (List.mem_reverse.mpr hk)

/-- Witness for C1 at the concrete kind `Least` and the empty base
registry. -/
theorem unsupported_ops_rejected_witness :
    List.lookup OpKind.Least (_operation_registry []) = some raise_unsupported_op_error
    ∧ raise_unsupported_op_error
        ⟨fun _ => SqlFrag.intLit 0, 0⟩ (IExpr.node OpKind.Least IArgs.nil DType.unknown)
        = Except.error (PyError.unsupportedOperationError (unsupportedMsg OpKind.Least)) := by
  refine ⟨(unsupported_ops_rejected [] OpKind.Least (by decide)).1, ?_⟩
  exact ((unsupported_ops_rejected [] OpKind.Least (by decide)).2
    ⟨fun _ => SqlFrag.intLit 0, 0⟩ (IExpr.node OpKind.Least IArgs.nil DType.unknown)).1

/-- C2: `to_sql` renders the compiled expression with
`literal_binds=True`: the rendering contains no bind marker, and the
returned text is the raw SQL with every parameter replaced by its
rendered literal value — for any compiled form the host framework
produces. -/
theorem to_sql_inlines_all_params :
    ∀ (host_compile : IExpr → CompiledQuery) (expr : IExpr),
      (compiledCompile true (host_compile expr)).any isMarker = false
      ∧ to_sql host_compile expr
          = String.join ((host_compile expr).map (fun tok =>
              match tok with
              | SqlToken.raw s => s
              | SqlToken.bindParam _ v => renderLit v)) := by
  intro hc expr
  refine ⟨(render_literal_binds (hc expr)).1, ?_⟩
  show String.join ((compiledCompile true (hc expr)).map renderedText) = _
  rw [(render_literal_binds (hc expr)).2]

/-- C3: `_find_params` raises `NameError` instead of returning the
parameter list, because the module never imports `ibis.expr.types as
ir` and the traversal evaluates the unbound name `ir` for every
argument that is not an int or a float.  Evaluated here at the node of
a column aggregate (a sub-expression argument plus a `None` filter) and
at a node with only a `None` argument. -/
theorem find_params_nameerror_eval :
    _find_params (0, [FlatArg.argExpr 1 [FlatArg.argStr "a"], FlatArg.argNone])
      = Except.error (PyError.nameError "ir")
    ∧ _find_params (0, [FlatArg.argNone]) = Except.error (PyError.nameError "ir")
    ∧ _find_params (0, [FlatArg.argInt 3, FlatArg.argInt 5, FlatArg.argInt 3])
      = Except.ok [PyNum.pyIntV 5, PyNum.pyIntV 3] := by
  exact ⟨rfl, rfl, rfl⟩

/-- C4: the registry binds `Count` to
`_reduction(sa.func.count)` — a function object, not a name string — so
`getattr(sa.func, func_name)` raises `TypeError` on every Count
translation and no aggregate SQL is emitted (first two conjuncts: the
binding, and the failure for every argument and filter).  For the
name-string reductions the claimed behaviour does hold, shown here for
`Sum` without and with a filter and for the `Mean`/`Max` bindings with
their cast types. -/
theorem count_reduction_getattr_typeerror :
    (∀ base, List.lookup OpKind.Count (_operation_registry base)
        = some (_reduction (SaFuncName.funcObj "count") "int32"))
    ∧ (∀ (t : Translator) (arg : IExpr) (w : IArg) (ty : DType),
        _reduction (SaFuncName.funcObj "count") "int32" t
            (IExpr.node OpKind.Count (IArgs.cons (IArg.aExpr arg) (IArgs.cons w IArgs.nil)) ty)
          = Except.error (PyError.typeError "attribute name must be string"))
    ∧ (∀ (t : Translator) (arg : IExpr) (ty : DType),
        _reduction (SaFuncName.str "sum") "int32" t
            (IExpr.node OpKind.Sum
              (IArgs.cons (IArg.aExpr arg) (IArgs.cons IArg.aNone IArgs.nil)) ty)
          = Except.ok (SqlFrag.func "sum"
              [t.translate (if arg.typeOf == DType.boolean
                            then IExpr.cast arg "int32" else arg)]))
    ∧ (∀ (t : Translator) (arg w : IExpr) (ty : DType),
        _reduction (SaFuncName.str "sum") "int32" t
            (IExpr.node OpKind.Sum
              (IArgs.cons (IArg.aExpr arg) (IArgs.cons (IArg.aExpr w) IArgs.nil)) ty)
          = Except.ok (SqlFrag.func "sum"
              [t.translate (IExpr.ifelseNull w
                 (if arg.typeOf == DType.boolean
                  then IExpr.cast arg "int32" else arg))]))
    ∧ (∀ base, List.lookup OpKind.Mean (_operation_registry base)
        = some (_reduction (SaFuncName.str "avg") "float64"))
    ∧ (∀ base, List.lookup OpKind.Max (_operation_registry base)
        = some (_reduction (SaFuncName.str "max") "int32")) :=
  ⟨fun _ => rfl, fun _ _ _ _ => rfl, fun _ _ _ => rfl, fun _ _ _ _ => rfl,
   fun _ => rfl, fun _ => rfl⟩

/-- C5: the registry binds `Substring` to `_substr`, which emits
`substring(arg, start + 1)` when the length argument is `None` and
`substring(arg, start + 1, length)` when a length is given. -/
theorem substring_one_based_rewrite :
    ∀ (base : List (OpKind × Rule)) (t : Translator)
      (arg start len : IExpr) (ty : DType),
      List.lookup OpKind.Substring (_operation_registry base) = some _substr
      ∧ _substr t (IExpr.node OpKind.Substring
            (IArgs.cons (IArg.aExpr arg)
              (IArgs.cons (IArg.aExpr start) (IArgs.cons IArg.aNone IArgs.nil))) ty)
          = Except.ok (SqlFrag.func "substring"
              [t.translate arg, SqlFrag.add (t.translate start) (SqlFrag.intLit 1)])
      ∧ _substr t (IExpr.node OpKind.Substring
            (IArgs.cons (IArg.aExpr arg)
              (IArgs.cons (IArg.aExpr start) (IArgs.cons (IArg.aExpr len) IArgs.nil))) ty)
          = Except.ok (SqlFrag.func "substring"
              [t.translate arg, SqlFrag.add (t.translate start) (SqlFrag.intLit 1),
               t.translate len]) :=
  fun _ _ _ _ _ _ => ⟨rfl, rfl, rfl⟩

/-- C6: the registry binds `StringFind` to `_string_find`, which emits
`charindex(substr, arg) - 1` without a start position and
`charindex(substr, arg, start) - 1` with one, the start passed through
unmodified. -/
theorem string_find_charindex_rewrite :
    ∀ (base : List (OpKind × Rule)) (t : Translator)
      (arg substr start : IExpr) (endArg : IArg) (ty : DType),
      List.lookup OpKind.StringFind (_operation_registry base) = some _string_find
      ∧ _string_find t (IExpr.node OpKind.StringFind
            (IArgs.cons (IArg.aExpr arg)
              (IArgs.cons (IArg.aExpr substr)
                (IArgs.cons IArg.aNone (IArgs.cons endArg IArgs.nil)))) ty)
          = Except.ok (SqlFrag.sub
              (SqlFrag.func "charindex" [t.translate substr, t.translate arg])
              (SqlFrag.intLit 1))
      ∧ _string_find t (IExpr.node OpKind.StringFind
            (IArgs.cons (IArg.aExpr arg)
              (IArgs.cons (IArg.aExpr substr)
                (IArgs.cons (IArg.aExpr start) (IArgs.cons endArg IArgs.nil)))) ty)
          = Except.ok (SqlFrag.sub
              (SqlFrag.func "charindex"
                [t.translate substr, t.translate arg, t.translate start])
              (SqlFrag.intLit 1)) :=
  fun _ _ _ _ _ _ _ => ⟨rfl, rfl, rfl⟩

/-- C7: each of the seven date-part extraction kinds is bound to
`_extract` with its date-part name, and `_extract fmt` emits
`datepart(fmt, arg)` cast to `SMALLINT`, with `fmt` entering as a
`literal_column` — raw SQL text, which the host toolkit does not bind
as a parameter (contrasted with a plain string value, which it does). -/
theorem extract_datepart_smallint_rewrite :
    ∀ (base : List (OpKind × Rule)) (t : Translator)
      (arg : IExpr) (k : OpKind) (ty : DType) (fmt : String),
      List.lookup OpKind.ExtractYear (_operation_registry base) = some (_extract "year")
      ∧ List.lookup OpKind.ExtractMonth (_operation_registry base) = some (_extract "month")
      ∧ List.lookup OpKind.ExtractDay (_operation_registry base) = some (_extract "day")
      ∧ List.lookup OpKind.ExtractHour (_operation_registry base) = some (_extract "hour")
      ∧ List.lookup OpKind.ExtractMinute (_operation_registry base) = some (_extract "minute")
      ∧ List.lookup OpKind.ExtractSecond (_operation_registry base) = some (_extract "second")
      ∧ List.lookup OpKind.ExtractMillisecond (_operation_registry base)
          = some (_extract "millisecond")
      ∧ _extract fmt t (IExpr.node k (IArgs.cons (IArg.aExpr arg) IArgs.nil) ty)
          = Except.ok (SqlFrag.cast
              (SqlFrag.func "datepart" [SqlFrag.literalColumn fmt, t.translate arg])
              SqlType.smallint)
      ∧ isBindFrag (SqlFrag.literalColumn fmt) = false
      ∧ isBindFrag (SqlFrag.strLit fmt) = true :=
  fun _ _ _ _ _ _ => ⟨rfl, rfl, rfl, rfl, rfl, rfl, rfl, rfl, rfl, rfl⟩

/-- C8: the translator type map sends Boolean to SQL_BIT, Int8 to
TINYINT, Int32 to INTEGER, Int64 to BIGINT, Float and Double both to
REAL, and String to VARCHAR, whatever the inherited base table holds;
in particular Float and Double map to the same column type. -/
theorem type_map_entries :
    ∀ base : List (DtClass × MsType),
      List.lookup DtClass.Boolean (MSSQLExprTranslator_type_map base) = some MsType.SQL_BIT
      ∧ List.lookup DtClass.Int8 (MSSQLExprTranslator_type_map base) = some MsType.TINYINT
      ∧ List.lookup DtClass.Int32 (MSSQLExprTranslator_type_map base) = some MsType.INTEGER
      ∧ List.lookup DtClass.Int64 (MSSQLExprTranslator_type_map base) = some MsType.BIGINT
      ∧ List.lookup DtClass.Float (MSSQLExprTranslator_type_map base) = some MsType.REAL
      ∧ List.lookup DtClass.Double (MSSQLExprTranslator_type_map base) = some MsType.REAL
      ∧ List.lookup DtClass.String (MSSQLExprTranslator_type_map base) = some MsType.VARCHAR
      ∧ List.lookup DtClass.Float (MSSQLExprTranslator_type_map base)
          = List.lookup DtClass.Double (MSSQLExprTranslator_type_map base) :=
  fun _ => ⟨rfl, rfl, rfl, rfl, rfl, rfl, rfl, rfl⟩

/-- C9: every rule the module installs (the MSSQL entries and the
unsupported-operation overrides) is deterministic and reads nothing
outside its arguments: its result is unchanged when the translator
carries different ambient state, as long as the `translate` delegate is
the same, and translating the same expression twice yields the same
result. -/
theorem registry_rules_stateless :
    ∀ (k : OpKind) (r : Rule),
      (k, r) ∈ _registry_updates ++ _unsupported_ops_dict →
      ∀ (f : IExpr → SqlFrag) (a b : Nat) (e : IExpr),
        r ⟨f, a⟩ e = r ⟨f, b⟩ e ∧ r ⟨f, a⟩ e = r ⟨f, a⟩ e := by
  have hAll : ∀ p ∈ _registry_updates ++ _unsupported_ops_dict,
      ∀ (f : IExpr → SqlFrag) (a b : Nat) (e : IExpr),
        p.2 ⟨f, a⟩ e = p.2 ⟨f, b⟩ e := by
    simp only [_registry_updates, _unsupported_ops_dict, _unsupported_ops, List.map,
      List.cons_append, List.nil_append, List.forall_mem_cons]
    repeat' apply And.intro
    all_goals first
      | (intro f a b e; rfl)
      | (intro p hp; exact absurd hp (List.not_mem_nil p))
  intro k r h f a b e
  exact ⟨hAll (k, r) h f a b e, rfl⟩

/-- Witness for C9 at the first installed entry, a concrete translate
delegate, two ambient states, and a concrete expression. -/
theorem registry_rules_stateless_witness :
    _reduction (SaFuncName.funcObj "count") "int32"
        ⟨fun _ => SqlFrag.intLit 0, 0⟩ (IExpr.node OpKind.Count IArgs.nil DType.unknown)
      = _reduction (SaFuncName.funcObj "count") "int32"
        ⟨fun _ => SqlFrag.intLit 0, 1⟩ (IExpr.node OpKind.Count IArgs.nil DType.unknown) := by
  have hmem : (OpKind.Count, _reduction (SaFuncName.funcObj "count") "int32")
      ∈ _registry_updates ++ _unsupported_ops_dict := by
    unfold _registry_updates
    exact List.mem_append_left _ (List.mem_cons_self _ _)
  exact (registry_rules_stateless OpKind.Count _ hmem (fun _ => SqlFrag.intLit 0) 0 1
    (IExpr.node OpKind.Count IArgs.nil DType.unknown)).1

/-- C10: building the MSSQL tables — registry copy plus its two
updates, rewrites copy, type-map copy plus its update — leaves the base
dict untouched in the heap and returns a reference distinct from the
base reference, for every heap and every valid base reference. -/
theorem module_init_preserves_base_tables :
    (∀ (h : Heap OpKind Rule) (baseRef : Nat), baseRef < h.length →
        heapGet (moduleInitRegistry h baseRef).1 baseRef = heapGet h baseRef
        ∧ (moduleInitRegistry h baseRef).2 ≠ baseRef)
    ∧ (∀ (V : Type) (h : Heap OpKind V) (baseRef : Nat), baseRef < h.length →
        heapGet (moduleInitRewrites h baseRef).1 baseRef = heapGet h baseRef
        ∧ (moduleInitRewrites h baseRef).2 ≠ baseRef)
    ∧ (∀ (h : Heap DtClass MsType) (baseRef : Nat), baseRef < h.length →
        heapGet (moduleInitTypeMap h baseRef).1 baseRef = heapGet h baseRef
        ∧ (moduleInitTypeMap h baseRef).2 ≠ baseRef) := by
  refine ⟨fun h baseRef hr => ⟨?_, ne_of_gt hr⟩,
          fun V h baseRef hr => ⟨heapGet_append _ _ _ hr, ne_of_gt hr⟩,
          fun h baseRef hr => ⟨?_, ne_of_gt hr⟩⟩
  · have hne : h.length ≠ baseRef := ne_of_gt hr
    show heapGet (pyUpdateAt (pyUpdateAt (h ++ [heapGet h baseRef]) h.length
        _registry_updates) h.length _unsupported_ops_dict) baseRef = heapGet h baseRef
    unfold pyUpdateAt
    rw [heapGet_set_ne _ _ _ _ hne, heapGet_set_ne _ _ _ _ hne, heapGet_append _ _ _ hr]
  · have hne : h.length ≠ baseRef := ne_of_gt hr
    show heapGet (pyUpdateAt (h ++ [heapGet h baseRef]) h.length
        _type_map_updates) baseRef = heapGet h baseRef
    unfold pyUpdateAt
    rw [heapGet_set_ne _ _ _ _ hne, heapGet_append _ _ _ hr]

/-- Witness for C10 on a one-dict heap with base reference 0. -/
theorem module_init_preserves_base_tables_witness :
    (heapGet (moduleInitRegistry [[]] 0).1 0 = heapGet ([[]] : Heap OpKind Rule) 0
      ∧ (moduleInitRegistry [[]] 0).2 ≠ 0)
    ∧ (heapGet (moduleInitRewrites ([[]] : Heap OpKind Unit) 0).1 0
          = heapGet ([[]] : Heap OpKind Unit) 0
      ∧ (moduleInitRewrites ([[]] : Heap OpKind Unit) 0).2 ≠ 0)
    ∧ (heapGet (moduleInitTypeMap [[]] 0).1 0 = heapGet ([[]] : Heap DtClass MsType) 0
      ∧ (moduleInitTypeMap [[]] 0).2 ≠ 0) :=
  ⟨module_init_preserves_base_tables.1 [[]] 0 (by decide),
   module_init_preserves_base_tables.2.1 Unit [[]] 0 (by decide),
   module_init_preserves_base_tables.2.2 [[]] 0 (by decide)⟩

end IbisMssql
